import Mathlib

/-!
Verification of the Quality Decision & Persistence Pipeline of the
Grabi_chatbot repository (entry points `GrabiUI3.py`, `ui1.py`,
`GrabitUI.py`).  The definitions below are a shallow embedding of the
Python source: `map_quality_state` and `compute_overall_quality` are the
functions of the same names in `GrabiUI3.py` (identical copies live in
`ui1.py` and `GrabitUI.py`), and `runDisposition` models the
audit-logging and image-relocation block at the bottom of `GrabiUI3.py`.
-/

/-- The `OverallQuality` enum of `GrabiUI3.py`. -/
inductive OverallQuality where
  | BAD
  | USABLE
  | GOOD
deriving DecidableEq, Repr

/-- The `.value` attribute of each `OverallQuality` member. -/
def OverallQuality.value : OverallQuality → String
  | .BAD => "Bad Quality"
  | .USABLE => "Usable Quality"
  | .GOOD => "Good Quality"

namespace QualityState

/-- `QualityState.YES.value` in the source. -/
def YES : String := "Y"

/-- `QualityState.NO.value` in the source. -/
def NO : String := "N"

/-- `QualityState.PARTIAL.value` in the source. -/
def PARTIAL : String := "P"

end QualityState

/--
One detector result: a Python dict whose keys vary by detector kind.
Exactly the fields inspected by the pipeline are modelled; a field with
value `none` stands for an absent key.  `confidence` is display-only and
never read by the decision logic, so it is omitted.
-/
structure CheckResult where
  quality_state : Option String := none
  has_eye : Option Bool := none
  lighting_correct : Option Bool := none
  prediction : Option String := none
deriving DecidableEq, Repr

/-- The `results` dict passed to `compute_overall_quality`: an ordered
mapping from check name to its `CheckResult`. -/
abbrev Results := List (String × CheckResult)

/-- `map_quality_state` from `GrabiUI3.py`: the argument is
`res.get("quality_state")`, hence an `Option String` (`none` is Python's
`None`). -/
def map_quality_state (code : Option String) : String :=
  if code = some QualityState.YES then "Good"
  else if code = some QualityState.NO then "Bad"
  else if code = some QualityState.PARTIAL then "Partial"
  else "Unknown"

/--
The loop body of `compute_overall_quality`: the state string the entry
`(key, res)` appends to `states`, or `none` when the entry is skipped.
Mirrors the source: a present `quality_state` field wins; otherwise the
keys `"Eye Presence"` and `"Illumination"` read their boolean flag with
`res.get(flag, False)`; every other entry contributes nothing.
-/
def entryState (key : String) (res : CheckResult) : Option String :=
  match res.quality_state with
  | some s => some s
  | none =>
    if key = "Eye Presence" then
      some (if res.has_eye.getD false then "Y" else "N")
    else if key = "Illumination" then
      some (if res.lighting_correct.getD false then "Y" else "N")
    else
      none

/-- The `states` list accumulated by the loop in `compute_overall_quality`. -/
def includedStates (results : Results) : List String :=
  results.filterMap (fun p => entryState p.1 p.2)

/-- `compute_overall_quality` from `GrabiUI3.py`. -/
def compute_overall_quality (results : Results) : OverallQuality :=
  let states := includedStates results
  if states.any (fun s => s = "N") then OverallQuality.BAD
  else if states.all (fun s => s = "Y") then OverallQuality.GOOD
  else OverallQuality.USABLE

/-- Shared helper: one `"N"` among the accumulated states forces the
`BAD` branch. -/
theorem bad_of_mem_N {results : Results} (h : "N" ∈ includedStates results) :
    compute_overall_quality results = OverallQuality.BAD := by
  unfold compute_overall_quality
  have hany : (includedStates results).any (fun s => s = "N") = true :=
    List.any_eq_true.mpr ⟨"N", h, by simp⟩
  simp [hany]

/-- Shared helper: an entry of `results` whose `entryState` is `some s`
puts `s` into `includedStates results`. -/
theorem mem_includedStates_of_entry {results : Results} {p : String × CheckResult}
    {s : String} (hp : p ∈ results) (hs : entryState p.1 p.2 = some s) :
    s ∈ includedStates results := by
  unfold includedStates
  exact List.mem_filterMap.mpr ⟨p, hp, hs⟩

/-- C1.  Dominance law: a results mapping containing an entry that
normalizes to BAD — a `quality_state` of `"N"`, or an `"Eye Presence"` /
`"Illumination"` entry with no `quality_state` field whose boolean flag
is false or absent — makes `compute_overall_quality` return
`OverallQuality.BAD`, no matter what the other entries are. -/
theorem compute_overall_quality_dominance (results : Results)
    (h : ∃ p ∈ results,
      p.2.quality_state = some "N" ∨
      (p.2.quality_state = none ∧
        ((p.1 = "Eye Presence" ∧ p.2.has_eye ≠ some true) ∨
         (p.1 = "Illumination" ∧ p.2.lighting_correct ≠ some true)))) :
    compute_overall_quality results = OverallQuality.BAD := by
  obtain ⟨p, hp, hcase⟩ := h
  apply bad_of_mem_N
  apply mem_includedStates_of_entry hp
  rcases hcase with hqs | ⟨hqn, hflag⟩
  · simp [entryState, hqs]
  · rcases hflag with ⟨hkey, hflag⟩ | ⟨hkey, hflag⟩
    · have : p.2.has_eye.getD false = false := by
        cases hfe : p.2.has_eye with
        | none => rfl
        | some b => cases b <;> simp_all
      simp [entryState, hqn, hkey, this]
    · have : p.2.lighting_correct.getD false = false := by
        cases hfe : p.2.lighting_correct with
        | none => rfl
        | some b => cases b <;> simp_all
      simp [entryState, hqn, hkey, this]

/-- Witness for C1: a concrete mapping with one failing binary flag and
two good tri-state checks is judged BAD. -/
theorem compute_overall_quality_dominance_witness :
    compute_overall_quality
      [("Eye Presence", { has_eye := some false }),
       ("Reflection", { quality_state := some "Y" }),
       ("Completeness", { quality_state := some "Y" })]
      = OverallQuality.BAD :=
  compute_overall_quality_dominance _
    ⟨("Eye Presence", { has_eye := some false }), by simp, by simp⟩

/-- C4.  When every state accumulated from the mapping is `"Y"` (a
tri-state `quality_state` of `"Y"` or a true binary flag),
`compute_overall_quality` returns `OverallQuality.GOOD`. -/
theorem compute_overall_quality_all_good (results : Results)
    (h : ∀ s ∈ includedStates results, s = "Y") :
    compute_overall_quality results = OverallQuality.GOOD := by
  unfold compute_overall_quality
  have hno : (includedStates results).any (fun s => s = "N") = false := by
    rw [List.any_eq_false]
    intro s hs
    simp [h s hs]
  have hall : (includedStates results).all (fun s => s = "Y") = true := by
    rw [List.all_eq_true]
    intro s hs
    simp [h s hs]
  simp [hno, hall]

/-- Witness for C4: a mapping whose three entries all normalize to `"Y"`
is judged GOOD. -/
theorem compute_overall_quality_all_good_witness :
    compute_overall_quality
      [("Eye Presence", { has_eye := some true }),
       ("Illumination", { lighting_correct := some true }),
       ("Resolution", { quality_state := some "Y" })]
      = OverallQuality.GOOD :=
  compute_overall_quality_all_good _ (by decide)

/-- C5.  A non-empty accumulated state list with no `"N"` and at least
one state other than `"Y"` (such as `"P"` or an unrecognized code) makes
`compute_overall_quality` return `OverallQuality.USABLE`. -/
theorem compute_overall_quality_usable (results : Results)
    (hne : includedStates results ≠ [])
    (hnoN : "N" ∉ includedStates results)
    (hnotY : ∃ s ∈ includedStates results, s ≠ "Y") :
    compute_overall_quality results = OverallQuality.USABLE := by
  unfold compute_overall_quality
  have hno : (includedStates results).any (fun s => s = "N") = false := by
    rw [List.any_eq_false]
    intro s hs
    simp only [decide_eq_true_eq]
    intro hsN
    exact hnoN (hsN ▸ hs)
  have hall : (includedStates results).all (fun s => s = "Y") = false := by
    obtain ⟨s, hs, hsY⟩ := hnotY
    rw [List.all_eq_false]
    exact ⟨s, hs, by simpa using hsY⟩
  simp [hno, hall]

/-- Witness for C5: one `"P"` tri-state alongside a `"Y"` yields USABLE. -/
theorem compute_overall_quality_usable_witness :
    compute_overall_quality
      [("Reflection", { quality_state := some "P" }),
       ("Completeness", { quality_state := some "Y" })]
      = OverallQuality.USABLE :=
  compute_overall_quality_usable _ (by decide) (by decide) ⟨"P", by decide⟩

/-- C6.  `map_quality_state` is a total function that maps `some "Y"` to
`"Good"`, `some "N"` to `"Bad"`, `some "P"` to `"Partial"`, and every
other argument — including `none`, Python's `None` for an absent
`quality_state` field — to `"Unknown"`; being a total Lean function it
can never raise. -/
theorem map_quality_state_total :
    map_quality_state (some "Y") = "Good" ∧
    map_quality_state (some "N") = "Bad" ∧
    map_quality_state (some "P") = "Partial" ∧
    ∀ c : Option String,
      c ≠ some "Y" → c ≠ some "N" → c ≠ some "P" →
      map_quality_state c = "Unknown" := by
  refine ⟨rfl, rfl, rfl, ?_⟩
  intro c hY hN hP
  simp [map_quality_state, QualityState.YES, QualityState.NO, QualityState.PARTIAL,
    hY, hN, hP]

/-- Witness for C6: evaluating the unrecognized-code clause at `none`
and at the unrecognized code `"Z"`. -/
theorem map_quality_state_total_witness :
    map_quality_state none = "Unknown" ∧ map_quality_state (some "Z") = "Unknown" :=
  ⟨map_quality_state_total.2.2.2 none (by simp) (by simp) (by simp),
   map_quality_state_total.2.2.2 (some "Z") (by simp) (by simp) (by simp)⟩

/-- C10.  A mapping contributing zero states — every entry lacks
`quality_state` and is keyed neither `"Eye Presence"` nor
`"Illumination"`, e.g. a lone Focus entry — is judged
`OverallQuality.GOOD`: `all` over the empty list is vacuously true. -/
theorem compute_overall_quality_empty_states (results : Results)
    (h : includedStates results = []) :
    compute_overall_quality results = OverallQuality.GOOD := by
  unfold compute_overall_quality
  simp [h]

/-- Witness for C10: a mapping holding only a Focus entry with no
`quality_state` field is judged GOOD. -/
theorem compute_overall_quality_empty_states_witness :
    compute_overall_quality [("Focus", { prediction := some "Blurry" })]
      = OverallQuality.GOOD :=
  compute_overall_quality_empty_states _ (by decide)

/-- Shared helper: with no `quality_state` field, an `"Eye Presence"`
entry normalizes to `"Y"` or `"N"` purely from `has_eye.getD false`. -/
theorem entryState_eye (res : CheckResult) (hq : res.quality_state = none) :
    entryState "Eye Presence" res
      = some (if res.has_eye.getD false then "Y" else "N") := by
  simp [entryState, hq]

/-- Shared helper: with no `quality_state` field, an `"Illumination"`
entry normalizes purely from `lighting_correct.getD false`. -/
theorem entryState_illum (res : CheckResult) (hq : res.quality_state = none) :
    entryState "Illumination" res
      = some (if res.lighting_correct.getD false then "Y" else "N") := by
  simp [entryState, hq]

/-- C7.  Binary-flag checks fail safe: an `"Eye Presence"` (resp.
`"Illumination"`) result with no `quality_state` field whose boolean
flag is absent normalizes to `"N"`, exactly as if the flag were present
and false, and any mapping containing such an entry is judged BAD — a
missing flag can never let the gate pass. -/
theorem binary_flag_fail_safe (results : Results) (res : CheckResult)
    (hq : res.quality_state = none) :
    (res.has_eye = none →
      entryState "Eye Presence" res = some "N" ∧
      entryState "Eye Presence" res
        = entryState "Eye Presence" { res with has_eye := some false } ∧
      (("Eye Presence", res) ∈ results →
        compute_overall_quality results = OverallQuality.BAD)) ∧
    (res.lighting_correct = none →
      entryState "Illumination" res = some "N" ∧
      entryState "Illumination" res
        = entryState "Illumination" { res with lighting_correct := some false } ∧
      (("Illumination", res) ∈ results →
        compute_overall_quality results = OverallQuality.BAD)) := by
  constructor
  · intro hf
    have hN : entryState "Eye Presence" res = some "N" := by
      rw [entryState_eye res hq]
      simp [hf]
    refine ⟨hN, ?_, fun hm => bad_of_mem_N (mem_includedStates_of_entry hm hN)⟩
    simp [entryState, hq, hf]
  · intro hf
    have hN : entryState "Illumination" res = some "N" := by
      rw [entryState_illum res hq]
      simp [hf]
    refine ⟨hN, ?_, fun hm => bad_of_mem_N (mem_includedStates_of_entry hm hN)⟩
    simp [entryState, hq, hf]

/-- Witness for C7: an `"Eye Presence"` result with every field absent
normalizes to `"N"` and sinks the verdict of a mapping containing it. -/
theorem binary_flag_fail_safe_witness :
    entryState "Eye Presence" {} = some "N" ∧
    compute_overall_quality [("Eye Presence", {}), ("Reflection", { quality_state := some "Y" })]
      = OverallQuality.BAD :=
  ⟨((binary_flag_fail_safe [] {} rfl).1 rfl).1,
   ((binary_flag_fail_safe
      [("Eye Presence", {}), ("Reflection", { quality_state := some "Y" })] {} rfl).1
        rfl).2.2 (by simp)⟩

/-- Counterexample to C8 as stated: two mappings that hold exactly one
entry each, both keyed `"Focus"`, so they differ only in the Focus
value, yet the verdicts differ — a Focus value carrying a
`quality_state` field does participate in aggregation, because the
source keys inclusion on the presence of that field, not on the check
name. -/
theorem focus_noninterference_cex :
    ([("Focus", ({ prediction := some "Sharp" } : CheckResult))].map Prod.fst
      = [("Focus", ({ quality_state := some "N" } : CheckResult))].map Prod.fst) ∧
    compute_overall_quality [("Focus", { prediction := some "Sharp" })]
      = OverallQuality.GOOD ∧
    compute_overall_quality [("Focus", { quality_state := some "N" })]
      = OverallQuality.BAD := by
  refine ⟨rfl, by decide, by decide⟩

/-- C8 amended.  A Focus entry without a `quality_state` field never
participates: two mappings that differ only in the value of the
`"Focus"` entry, where neither value carries a `quality_state` field,
receive the same verdict from `compute_overall_quality`. -/
theorem focus_no_influence (pre post : Results) (res res' : CheckResult)
    (h : res.quality_state = none) (h' : res'.quality_state = none) :
    compute_overall_quality (pre ++ [("Focus", res)] ++ post)
      = compute_overall_quality (pre ++ [("Focus", res')] ++ post) := by
  have hst : ∀ r : CheckResult, r.quality_state = none →
      entryState "Focus" r = none := by
    intro r hr
    simp [entryState, hr]
  unfold compute_overall_quality includedStates
  rw [List.filterMap_append, List.filterMap_append, List.filterMap_append,
    List.filterMap_append]
  simp only [List.filterMap_cons, List.filterMap_nil, hst res h, hst res' h']

/-- Witness for C8 amended: swapping the Focus prediction between two
otherwise identical mappings leaves the verdict unchanged. -/
theorem focus_no_influence_witness :
    compute_overall_quality
      ([("Eye Presence", { has_eye := some true })] ++
        [("Focus", { prediction := some "Sharp" })] ++
        [("Reflection", { quality_state := some "P" })])
      = compute_overall_quality
        ([("Eye Presence", { has_eye := some true })] ++
          [("Focus", { prediction := some "Blurry" })] ++
          [("Reflection", { quality_state := some "P" })]) :=
  focus_no_influence _ _ _ _ rfl rfl

/-- A `datetime.now()` value at second granularity, as consumed by the
two `strftime` calls in `GrabiUI3.py`. -/
structure Timestamp where
  year : Nat
  month : Nat
  day : Nat
  hour : Nat
  minute : Nat
  second : Nat
deriving DecidableEq, Repr

/-- Two-digit zero padding, as `strftime` does for `%m %d %H %M %S`. -/
def pad2 (n : Nat) : String :=
  if n < 10 then "0" ++ toString n else toString n

/-- Four-digit zero padding, as `strftime` does for `%Y`. -/
def pad4 (n : Nat) : String :=
  if n < 10 then "000" ++ toString n
  else if n < 100 then "00" ++ toString n
  else if n < 1000 then "0" ++ toString n
  else toString n

/-- The `%Y%m%d` date component of the saved-image filename. -/
def dateStr (t : Timestamp) : String :=
  pad4 t.year ++ pad2 t.month ++ pad2 t.day

/-- The `%H%M%S` time component of the saved-image filename. -/
def timeStr (t : Timestamp) : String :=
  pad2 t.hour ++ pad2 t.minute ++ pad2 t.second

/-- `f"quality_results_{datetime.now().strftime('%Y%m%d_%H%M%S')}.jpg"`
from `GrabiUI3.py` (the working copy is always saved as `.jpg`). -/
def fileName (t : Timestamp) : String :=
  "quality_results_" ++ dateStr t ++ "_" ++ timeStr t ++ ".jpg"

/-- `datetime.now().strftime("%Y-%m-%d %H:%M:%S")`, the `timestamp`
column of the audit row. -/
def logTimestamp (t : Timestamp) : String :=
  pad4 t.year ++ "-" ++ pad2 t.month ++ "-" ++ pad2 t.day ++ " " ++
    pad2 t.hour ++ ":" ++ pad2 t.minute ++ ":" ++ pad2 t.second

/-- One row of `results_log.csv`: run timestamp, overall verdict display
string, and the per-check display strings copied from `table_data`. -/
structure AuditRecord where
  timestamp : String
  overall : String
  perCheck : List (String × String)
deriving DecidableEq, Repr

/-- The shared mutable filesystem state the disposition block touches:
the audit log (`results_log.csv` rows) and the results directory
(`saved_results/`, a mapping filename to image content, the content
abstracted as a `Nat` identity). -/
structure FsState where
  log : List AuditRecord
  resultsDir : List (String × Nat)
deriving DecidableEq, Repr

/-- The user-facing outcome of one run: `st.success` with the saved
path, or `st.warning` that the image was rejected and not saved. -/
inductive DispositionOutcome where
  | saved (path : String)
  | rejected
deriving DecidableEq, Repr

/-- `shutil.move(img_path, save_path)` semantics on the results
directory: a move onto an existing destination filename silently
replaces that file; otherwise a new entry appears. -/
def moveInto (dir : List (String × Nat)) (name : String) (img : Nat) :
    List (String × Nat) :=
  if dir.any (fun p => p.1 = name) then
    dir.map (fun p => if p.1 = name then (name, img) else p)
  else
    dir ++ [(name, img)]

/--
The disposition block at the bottom of `GrabiUI3.py`: first the audit
row is appended to `results_log.csv` unconditionally; then, only when
`overall != OverallQuality.BAD`, the working copy `img` is moved into
the results directory under the second-granularity timestamp filename.
`tableData` is the per-check display-string table built upstream
(`table_data` in the source), and `now` the run's `datetime.now()`.
-/
def runDisposition (overall : OverallQuality) (now : Timestamp)
    (tableData : List (String × String)) (img : Nat) (st : FsState) :
    FsState × DispositionOutcome :=
  let entry : AuditRecord :=
    { timestamp := logTimestamp now, overall := overall.value, perCheck := tableData }
  let st1 : FsState := { st with log := st.log ++ [entry] }
  if overall ≠ OverallQuality.BAD then
    ({ st1 with resultsDir := moveInto st1.resultsDir (fileName now) img },
      DispositionOutcome.saved (fileName now))
  else
    (st1, DispositionOutcome.rejected)

/-- C2.  Every pipeline run appends exactly one audit record — one row
holding the run timestamp, the overall verdict display string and the
per-check display strings — whatever the verdict is; in particular a
BAD run is still logged. -/
theorem audit_log_always_appends (overall : OverallQuality) (now : Timestamp)
    (tableData : List (String × String)) (img : Nat) (st : FsState) :
    (runDisposition overall now tableData img st).1.log
      = st.log ++
        [{ timestamp := logTimestamp now, overall := overall.value,
           perCheck := tableData }] := by
  unfold runDisposition
  cases overall <;> simp

/-- C9.  Disposition frame condition: a BAD verdict leaves the results
directory untouched and reports rejection; any other verdict moves the
working copy to the second-granularity timestamp filename — which by
construction matches `quality_results_<YYYYMMDD>_<HHMMSS>.jpg` — and
reports that saved path. -/
theorem disposition_frame (overall : OverallQuality) (now : Timestamp)
    (tableData : List (String × String)) (img : Nat) (st : FsState) :
    (overall = OverallQuality.BAD →
      (runDisposition overall now tableData img st).1.resultsDir = st.resultsDir ∧
      (runDisposition overall now tableData img st).2 = DispositionOutcome.rejected) ∧
    (overall ≠ OverallQuality.BAD →
      (runDisposition overall now tableData img st).1.resultsDir
        = moveInto st.resultsDir (fileName now) img ∧
      (runDisposition overall now tableData img st).2
        = DispositionOutcome.saved (fileName now) ∧
      fileName now
        = "quality_results_" ++ dateStr now ++ "_" ++ timeStr now ++ ".jpg") := by
  constructor
  · intro hbad
    subst hbad
    simp [runDisposition]
  · intro hne
    unfold runDisposition
    simp [hne, fileName]

/-- Witness for C9, at a BAD run and at a USABLE run from an empty
filesystem state. -/
theorem disposition_frame_witness :
    ((runDisposition OverallQuality.BAD ⟨2026, 10, 12, 9, 30, 0⟩ [] 1
        ⟨[], []⟩).1.resultsDir = [] ∧
     (runDisposition OverallQuality.BAD ⟨2026, 10, 12, 9, 30, 0⟩ [] 1
        ⟨[], []⟩).2 = DispositionOutcome.rejected) ∧
    ((runDisposition OverallQuality.USABLE ⟨2026, 10, 12, 9, 30, 0⟩ [] 2
        ⟨[], []⟩).1.resultsDir
        = moveInto [] (fileName ⟨2026, 10, 12, 9, 30, 0⟩) 2 ∧
     (runDisposition OverallQuality.USABLE ⟨2026, 10, 12, 9, 30, 0⟩ [] 2
        ⟨[], []⟩).2
        = DispositionOutcome.saved (fileName ⟨2026, 10, 12, 9, 30, 0⟩) ∧
     fileName ⟨2026, 10, 12, 9, 30, 0⟩
        = "quality_results_" ++ dateStr ⟨2026, 10, 12, 9, 30, 0⟩ ++ "_" ++
            timeStr ⟨2026, 10, 12, 9, 30, 0⟩ ++ ".jpg") :=
  ⟨(disposition_frame OverallQuality.BAD ⟨2026, 10, 12, 9, 30, 0⟩ [] 1
      ⟨[], []⟩).1 rfl,
   (disposition_frame OverallQuality.USABLE ⟨2026, 10, 12, 9, 30, 0⟩ [] 2
      ⟨[], []⟩).2 (by decide)⟩

/-- C3 fails on the code: two retained runs in the same clock second
both compute the filename `quality_results_20261012_093000.jpg`, and
the second `shutil.move` silently replaces the image saved by the
first, so only the second image (here content `2`) persists — the
claim requires both to persist under distinct filenames. -/
theorem same_second_runs_overwrite :
    (runDisposition OverallQuality.USABLE ⟨2026, 10, 12, 9, 30, 0⟩ [] 2
        (runDisposition OverallQuality.GOOD ⟨2026, 10, 12, 9, 30, 0⟩ [] 1
          ⟨[], []⟩).1).1.resultsDir
      = [("quality_results_20261012_093000.jpg", 2)] := by decide
